import Mathlib

/-!
Verification of the build-and-submit pipeline: a shallow embedding of the
workspace builder (`anchorBuilder.ts`), the submission client
(`blueshiftClient.ts`) and the wallet constructor (`solana.ts`), with
theorems settling the frozen claims about them.

Modelling conventions:
  * JavaScript strings are modelled by Lean `String` (claims only exercise
    ASCII data, where the two agree character for character).
  * Filesystem and subprocess outcomes are explicit oracle inputs (a
    `BuildWorld`), so that the pure result-assembly logic of the source is
    a total function of them.
  * HTTP responses are explicit records carrying status, headers, raw text
    and the outcome of JSON decoding.
  * Machine integers do not occur; byte values are `Nat` in `[0, 255]`.
-/

/-- Decimal or lowercase-hex style digit for bases up to 36: digits `0`-`9`
then letters `a`-`z`, matching JavaScript `Number.prototype.toString(36)`. -/
def base36Char (n : Nat) : Char :=
  if n < 10 then Char.ofNat (48 + n) else Char.ofNat (87 + n)

/-- Digit list of `n` in base 36, most significant first. The `fuel`
parameter only bounds the recursion depth and is always sufficient when
instantiated with `n + 1`, since the value shrinks by a factor 36 per
step. -/
def natToBase36Aux (fuel : Nat) (n : Nat) : List Char :=
  match fuel with
  | 0 => []
  | fuel + 1 =>
    if n < 36 then [base36Char n]
    else natToBase36Aux fuel (n / 36) ++ [base36Char (n % 36)]

/-- Base-36 rendering of a natural number, as produced by
`Date.now().toString(36)` in the source. -/
def natToBase36 (n : Nat) : String :=
  ⟨natToBase36Aux (n + 1) n⟩

/-- Character of the standard base64 alphabet at index `n < 64`. -/
def base64Char (n : Nat) : Char :=
  if n < 26 then Char.ofNat (65 + n)
  else if n < 52 then Char.ofNat (97 + (n - 26))
  else if n < 62 then Char.ofNat (48 + (n - 52))
  else if n == 62 then '+'
  else '/'

/-- Standard base64 encoding of a byte list (bytes are `Nat` values below
256), with `=` padding, as produced by `Buffer.toString("base64")`. -/
def base64EncodeList : List Nat → List Char
  | [] => []
  | [b1] =>
    [base64Char (b1 / 4 % 64), base64Char (b1 % 4 * 16), '=', '=']
  | [b1, b2] =>
    [base64Char (b1 / 4 % 64), base64Char ((b1 % 4 * 16 + b2 / 16) % 64),
     base64Char (b2 % 16 * 4), '=']
  | b1 :: b2 :: b3 :: rest =>
    base64Char (b1 / 4 % 64) :: base64Char ((b1 % 4 * 16 + b2 / 16) % 64) ::
    base64Char ((b2 % 16 * 4 + b3 / 64) % 64) :: base64Char (b3 % 64) ::
    base64EncodeList rest

/-- String form of the base64 encoding of a byte list. -/
def base64Encode (bytes : List Nat) : String :=
  ⟨base64EncodeList bytes⟩

/-- Whitespace characters stripped by JavaScript `String.prototype.trim`
(modelled at the ASCII/common-Unicode level). -/
def jsWhitespace (c : Char) : Bool :=
  c.toNat == 9 || c.toNat == 10 || c.toNat == 11 || c.toNat == 12 ||
  c.toNat == 13 || c.toNat == 32 || c.toNat == 160 ||
  c.toNat == 0x2028 || c.toNat == 0x2029 || c.toNat == 0xFEFF

/-- Characters matched by the character class `[a-z0-9_]` of the sanitizer
regex in `sanitizeProgramName`. -/
def keepChar (c : Char) : Bool :=
  (97 ≤ c.toNat && c.toNat ≤ 122) || (48 ≤ c.toNat && c.toNat ≤ 57) ||
  c.toNat == 95

/-- Strictly alphanumeric characters (`[a-z0-9]`, underscore excluded), the
character class named by the claim wording "non-alphanumeric". -/
def alnumChar (c : Char) : Bool :=
  (97 ≤ c.toNat && c.toNat ≤ 122) || (48 ≤ c.toNat && c.toNat ≤ 57)

/-- Run-state scanner behind `collapseRuns`: `inRun` records whether the
previous character belonged to a run of rejected characters, so that each
maximal run emits exactly one underscore at its first character. -/
def collapseRunsAux (keep : Char → Bool) : Bool → List Char → List Char
  | _, [] => []
  | inRun, c :: rest =>
    if keep c then c :: collapseRunsAux keep false rest
    else if inRun then collapseRunsAux keep true rest
    else '_' :: collapseRunsAux keep true rest

/-- Replacement of every maximal run of characters failing `keep` by a
single underscore, i.e. `replace(/[^...]+/g, "_")` for the complement
class of `keep`. -/
def collapseRuns (keep : Char → Bool) (l : List Char) : List Char :=
  collapseRunsAux keep false l

/-- Removal of the leading and trailing runs of characters satisfying `p`,
as done by `trim()` (with `p` = whitespace) and by
`replace(/^_+|_+$/g, "")` (with `p` = underscore test). -/
def trimEndsWhile (p : Char → Bool) (l : List Char) : List Char :=
  (((l.dropWhile p).reverse.dropWhile p).reverse)

/-- Embedding of `sanitizeProgramName` from `anchorBuilder.ts`: trim,
lowercase, collapse every run of characters outside `[a-z0-9_]` to a
single underscore, strip leading/trailing underscores, and fall back to
`"anchor_program"` when the result is empty. -/
def sanitizeProgramName (name : String) : String :=
  let cleaned :=
    trimEndsWhile (fun c => c == '_')
      (collapseRuns keepChar ((trimEndsWhile jsWhitespace name.data).map Char.toLower))
  if cleaned.isEmpty then "anchor_program" else ⟨cleaned⟩

/-- Embedding of `toKebabCase` from `anchorBuilder.ts`: the sanitized name
with every underscore replaced by a hyphen. -/
def toKebabCase (name : String) : String :=
  ⟨(sanitizeProgramName name).data.map (fun c => if c == '_' then '-' else c)⟩

/-- Slug derivation following the claim wording for C6 ("collapsing every
run of non-alphanumeric characters into a single separator"): identical
pipeline but with underscore treated as a collapsible separator character
rather than a kept one. -/
def claimSlugOfName (name : String) : String :=
  let cleaned :=
    trimEndsWhile (fun c => c == '_')
      (collapseRuns alnumChar ((trimEndsWhile jsWhitespace name.data).map Char.toLower))
  if cleaned.isEmpty then "anchor_program" else ⟨cleaned⟩

/-- Unique workspace slug from `createAnchorProgram`:
`` `${programDirName}-${Date.now().toString(36)}-${randomUUID().slice(0, 8)}` ``.
The timestamp tick and the freshly drawn UUID are explicit inputs. -/
def makeWorkspaceSlug (programName : String) (tick : Nat) (uuid : String) : String :=
  toKebabCase programName ++ "-" ++ natToBase36 tick ++ "-" ++ ⟨uuid.data.take 8⟩

/-- Captured output of a failed subprocess (`ExecFileException` enriched
with optional stdout/stderr, as the source reads it in its catch arms). -/
structure ExecFailure where
  stdoutOpt : Option String
  stderrOpt : Option String
  message : String

/-- Outcome of one `execFileAsync` invocation: zero exit with captured
output, or a nonzero-exit failure. -/
inductive ExecResult where
  | ok (stdout stderr : String)
  | fail (e : ExecFailure)

/-- Oracle describing everything the environment decides during one build:
the scaffold and build subprocess outcomes and the state of the artifact
files probed afterwards. -/
structure BuildWorld where
  scaffoldResult : ExecResult
  buildResult : ExecResult
  soExists : Bool
  keypairExists : Bool
  soBytes : List Nat

/-- Embedding of the `AnchorBuildResult` interface. -/
structure AnchorBuildResult where
  success : Bool
  stdout : String
  stderr : String
  programSoPath : Option String
  programSoBase64 : Option String
  keypairPath : Option String
  errorMessage : Option String

/-- Embedding of the `CreatedAnchorProgram` interface (files are
relative-path/content pairs). -/
structure CreatedAnchorProgram where
  workspaceDir : String
  files : List (String × String)
  build : Option AnchorBuildResult

/-- Result assembly of the build phase of `createAnchorProgram`
(lines 93-157 of `anchorBuilder.ts`): on zero exit both the binary and the
keypair file are probed; on nonzero exit only the binary is probed and
`keypairPath` is never set. -/
def anchorBuildPhase (workspaceDir slug : String) (w : BuildWorld) : AnchorBuildResult :=
  let soPath := workspaceDir ++ "/target/deploy/" ++ slug ++ ".so"
  let kpPath := workspaceDir ++ "/target/deploy/" ++ slug ++ "-keypair.json"
  match w.buildResult with
  | .ok out err =>
    { success := true
      stdout := out
      stderr := err
      programSoPath := if w.soExists then some soPath else none
      programSoBase64 := if w.soExists then some (base64Encode w.soBytes) else none
      keypairPath := if w.keypairExists then some kpPath else none
      errorMessage := none }
  | .fail e =>
    { success := false
      stdout := e.stdoutOpt.getD ""
      stderr := e.stderrOpt.getD ""
      programSoPath := if w.soExists then some soPath else none
      programSoBase64 := if w.soExists then some (base64Encode w.soBytes) else none
      keypairPath := none
      errorMessage := some e.message }

/-- Embedding of `createAnchorProgram` from `anchorBuilder.ts`. The current
working directory, the timestamp tick and the drawn UUID are explicit
inputs; path joins are rendered with `/`. A scaffold failure raises (the
`Except.error` case); otherwise the caller-supplied sources are recorded
and the build phase result is attached. -/
def createAnchorProgram (programName cargoToml libRs : String) (cwd : String)
    (tick : Nat) (uuid : String) (w : BuildWorld) : Except String CreatedAnchorProgram :=
  let slug := makeWorkspaceSlug programName tick uuid
  let outputRoot := cwd ++ "/artifacts/anchor"
  let workspaceDir := outputRoot ++ "/" ++ slug
  match w.scaffoldResult with
  | .fail e =>
    .error ("Failed to scaffold Anchor project: " ++ e.message ++ "\n" ++ e.stderrOpt.getD "")
  | .ok _ _ =>
    let files := [("programs/" ++ slug ++ "/src/lib.rs", libRs),
                  ("programs/" ++ slug ++ "/Cargo.toml", cargoToml)]
    .ok { workspaceDir := workspaceDir, files := files,
          build := some (anchorBuildPhase workspaceDir slug w) }

/-- JSON values as decoded by `response.json()`; synthesized envelopes built
by the client are plain objects and live in the same type. Object fields
are kept in insertion order with distinct keys (the shape `JSON.parse`
produces). -/
inductive JsonVal where
  | null
  | bool (b : Bool)
  | num (n : Int)
  | str (s : String)
  | arr (elems : List JsonVal)
  | obj (fields : List (String × JsonVal))

/-- First binding of `key` in an association list of JSON object fields. -/
def lookupField : List (String × JsonVal) → String → Option JsonVal
  | [], _ => none
  | (k, v) :: rest, key => if k == key then some v else lookupField rest key

/-- Property access `payload[key]` for a decoded JSON payload: defined only
on objects, `undefined` (here `none`) everywhere else. -/
def JsonVal.getField : JsonVal → String → Option JsonVal
  | .obj fs, key => lookupField fs key
  | _, _ => none

/-- Hexadecimal digit (lowercase letters) for `n < 16`. -/
def hexChar (n : Nat) : Char :=
  if n < 10 then Char.ofNat (48 + n) else Char.ofNat (87 + n)

/-- JSON string escaping for one character, as `JSON.stringify` performs
it: quote, backslash, the common control escapes, and `\u00XX` for the
remaining control characters. -/
def escapeChar (c : Char) : List Char :=
  if c == '"' then ['\\', '"']
  else if c == '\\' then ['\\', '\\']
  else if c == '\n' then ['\\', 'n']
  else if c == '\r' then ['\\', 'r']
  else if c == '\t' then ['\\', 't']
  else if c.toNat < 32 then
    ['\\', 'u', '0', '0', hexChar (c.toNat / 16), hexChar (c.toNat % 16)]
  else [c]

/-- JSON escaping of a whole string body. -/
def jsonEscape (s : String) : String :=
  ⟨s.data.foldr (fun c acc => escapeChar c ++ acc) []⟩

mutual

/-- Compact serialization of a JSON value, as `JSON.stringify` renders it
(fields in insertion order, no added whitespace). -/
def jsonStringify : JsonVal → String
  | .null => "null"
  | .bool true => "true"
  | .bool false => "false"
  | .num n => toString n
  | .str s => "\"" ++ jsonEscape s ++ "\""
  | .arr xs => "[" ++ stringifyElems xs ++ "]"
  | .obj fs => "\x7b" ++ stringifyFields fs ++ "\x7d"

/-- Comma-separated serialization of array elements. -/
def stringifyElems : List JsonVal → String
  | [] => ""
  | [x] => jsonStringify x
  | x :: y :: rest => jsonStringify x ++ "," ++ stringifyElems (y :: rest)

/-- Comma-separated serialization of object fields. -/
def stringifyFields : List (String × JsonVal) → String
  | [] => ""
  | [(k, v)] => "\"" ++ jsonEscape k ++ "\":" ++ jsonStringify v
  | (k, v) :: f :: rest =>
    "\"" ++ jsonEscape k ++ "\":" ++ jsonStringify v ++ "," ++ stringifyFields (f :: rest)

end

/-- The expression `typeof payload === "object" ? JSON.stringify(payload)
: String(payload)` used when the client synthesizes an error message from
an unclassifiable payload (`typeof` is `"object"` for objects, arrays and
`null`). -/
def stringifyPayloadForMessage (p : JsonVal) : String :=
  match p with
  | .obj _ => jsonStringify p
  | .arr _ => jsonStringify p
  | .null => jsonStringify p
  | .str s => s
  | .bool b => if b then "true" else "false"
  | .num n => toString n

/-- Embedding of `isClientSubmissionSuccess`: the payload is a (non-null)
object whose `success` member is a boolean and whose `results` member is
an array. -/
def isClientSubmissionSuccess (p : JsonVal) : Bool :=
  match p with
  | .obj _ =>
    (match p.getField "success" with | some (.bool _) => true | _ => false) &&
    (match p.getField "results" with | some (.arr _) => true | _ => false)
  | _ => false

/-- Embedding of `isClientSubmissionError`: the payload is a (non-null)
object whose `error` and `message` members are both strings. -/
def isClientSubmissionError (p : JsonVal) : Bool :=
  match p with
  | .obj _ =>
    (match p.getField "error" with | some (.str _) => true | _ => false) &&
    (match p.getField "message" with | some (.str _) => true | _ => false)
  | _ => false

/-- One HTTP exchange as the submission client observes it: status code and
text, the `content-type` header (absent when the server sent none), the
raw body text, and the outcome of attempting to decode the body as JSON
(`Except.error` carries the parse-failure message). -/
structure HttpResponse where
  status : Nat
  statusText : String
  contentTypeHeader : Option String
  bodyText : String
  jsonBody : Except String JsonVal

/-- The `Response.ok` predicate of `fetch`: status in the range 200-299. -/
def responseOk (status : Nat) : Bool :=
  200 ≤ status && status < 300

/-- Substring test, as `String.prototype.includes` performs it. -/
def hasSubstr (needle : List Char) : List Char → Bool
  | [] => needle.isEmpty
  | c :: rest => needle.isPrefixOf (c :: rest) || hasSubstr needle rest

/-- Whether the response's `content-type` header (defaulted to the empty
string when absent) contains `application/json`. -/
def contentTypeIndicatesJson (r : HttpResponse) : Bool :=
  hasSubstr "application/json".data (r.contentTypeHeader.getD "").data

/-- Embedding of `parseJsonSafe`: a non-JSON content type yields a
synthesized error envelope carrying the raw body text; a JSON parse
failure yields a synthesized envelope carrying the parse error message;
otherwise the decoded value is returned. -/
def parseJsonSafe (r : HttpResponse) : JsonVal :=
  if contentTypeIndicatesJson r then
    match r.jsonBody with
    | .ok v => v
    | .error msg => JsonVal.obj [("error", .str "Invalid JSON"), ("message", .str msg)]
  else
    JsonVal.obj [("error", .str "Invalid response"), ("message", .str r.bodyText)]

/-- Embedding of the `ClientSubmissionResponse` union: classified body plus
the original transport status, with `ok` tagging the branch. -/
structure ClientSubmissionResponse where
  ok : Bool
  status : Nat
  body : JsonVal

/-- Response classification of `submitClientChallenge` (lines 336-358 of
the client): success envelope only when `response.ok` holds and the
payload is success-shaped; otherwise an error-shaped payload passes
through and anything else becomes a synthesized envelope with the
stringified payload. -/
def classifyClientSubmission (r : HttpResponse) : ClientSubmissionResponse :=
  let payload := parseJsonSafe r
  if responseOk r.status && isClientSubmissionSuccess payload then
    { ok := true, status := r.status, body := payload }
  else
    let errorBody :=
      if isClientSubmissionError payload then payload
      else JsonVal.obj [("error", .str "Invalid response"),
                        ("message", .str (stringifyPayloadForMessage payload))]
    { ok := false, status := r.status, body := errorBody }

/-- A versioned transaction, modelled by the byte serialization it has
once the wallet's signature is attached (ed25519 signing and wire
serialization happen in external libraries and are opaque here). -/
structure VersionedTransaction where
  signedSerialization : List Nat

/-- Embedding of `SolanaWallet.signAndEncodeTransaction` from `solana.ts`:
sign the transaction with the held keypair and base64-encode its
serialization. -/
def signAndEncodeTransaction (t : VersionedTransaction) : String :=
  base64Encode t.signedSerialization

/-- Provenance-tagged outcome of payload resolution: either the
caller-supplied base64 string used verbatim (no signing happened), or the
transaction object that the wallet will sign and serialize. -/
inductive ResolvedPayload where
  | verbatim (s : String)
  | signed (t : VersionedTransaction)

/-- Base64 string a resolved payload contributes to the request body. -/
def ResolvedPayload.encode : ResolvedPayload → String
  | .verbatim s => s
  | .signed t => signAndEncodeTransaction t

/-- JavaScript truthiness of an optional string: absent and empty strings
are falsy, every other string is truthy. -/
def jsTruthyStr (s : Option String) : Bool :=
  match s with
  | none => false
  | some v => !(v == "")

/-- Error message thrown by `resolveTransactionBase64` when neither payload
form is supplied. -/
def missingPayloadMessage : String :=
  "Client submission requires either a pre-signed transactionBase64 or a VersionedTransaction instance"

/-- Embedding of `resolveTransactionBase64` (lines 360-375 of the client):
a truthy `transactionBase64` wins and is used verbatim; otherwise a
supplied transaction is signed and serialized; otherwise the call throws
the missing-payload error. -/
def resolveTransactionBase64 (transactionBase64 : Option String)
    (transaction : Option VersionedTransaction) : Except String ResolvedPayload :=
  if jsTruthyStr transactionBase64 then .ok (.verbatim (transactionBase64.getD ""))
  else
    match transaction with
    | none => .error missingPayloadMessage
    | some t => .ok (.signed t)

/-- Observable network effect of a submission call. -/
inductive NetEffect where
  | post (url : String) (requestBody : String)

/-- Removal of a single trailing slash, as `baseUrl.replace(/\/$/, "")`. -/
def stripTrailingSlash (s : String) : String :=
  if s.endsWith "/" then s.dropRight 1 else s

/-- Uppercase hexadecimal digit for `n < 16`. -/
def hexCharUpper (n : Nat) : Char :=
  if n < 10 then Char.ofNat (48 + n) else Char.ofNat (55 + n)

/-- Characters `encodeURIComponent` leaves unescaped. -/
def uriUnreserved (c : Char) : Bool :=
  (65 ≤ c.toNat && c.toNat ≤ 90) || (97 ≤ c.toNat && c.toNat ≤ 122) ||
  (48 ≤ c.toNat && c.toNat ≤ 57) ||
  c == '-' || c == '_' || c == '.' || c == '!' || c == '~' || c == '*' ||
  c == '(' || c == ')' || c.toNat == 39

/-- Embedding of `encodeURIComponent` at the ASCII level: unreserved
characters pass through, everything else is percent-encoded byte-wise
(multi-byte UTF-8 expansion of non-ASCII input is outside the claims). -/
def encodeURIComponent (s : String) : String :=
  ⟨s.data.foldr
    (fun c acc =>
      if uriUnreserved c then c :: acc
      else '%' :: hexCharUpper (c.toNat / 16) :: hexCharUpper (c.toNat % 16) :: acc)
    []⟩

/-- Embedding of `submitClientChallenge` (lines 309-358 of the client),
instrumented with the list of network effects it performs. Payload
resolution runs before the request is built, so a missing payload yields
the thrown error paired with an empty effect trace; otherwise exactly one
POST with the JSON body `\x7b transaction, address \x7d` is recorded and
the classified response is returned. -/
def submitClientChallenge (baseUrl walletAddress slug : String)
    (transactionBase64 : Option String) (transaction : Option VersionedTransaction)
    (r : HttpResponse) : List NetEffect × Except String ClientSubmissionResponse :=
  let target := stripTrailingSlash baseUrl ++ "/v1/challenges/client/" ++ encodeURIComponent slug
  match resolveTransactionBase64 transactionBase64 transaction with
  | .error msg => ([], .error msg)
  | .ok resolved =>
    let requestBody :=
      jsonStringify (JsonVal.obj [("transaction", .str resolved.encode),
                                  ("address", .str walletAddress)])
    ([NetEffect.post target requestBody], .ok (classifyClientSubmission r))

/-- Registered-agent record of a progress response. -/
structure AgentInfo where
  agent_name : String
  team : String
  address : String
  model : Option String
  registered_at : String

/-- Latest-attempt snapshot inside a progress entry. -/
structure LatestAttempt where
  passed : Bool
  cu_consumed : Option Int
  binary_size : Option Int
  attempt_time : String

/-- Challenge kind tag. -/
inductive ChallengeType where
  | program
  | client

/-- Challenge summary fields shared by listings and progress entries. -/
structure ChallengeSummary where
  slug : String
  name : String
  category : String
  challenge_type : ChallengeType
  submission_endpoint : String
  problem_description : String

/-- One per-challenge progress entry. -/
structure ProgressEntry extends ChallengeSummary where
  attempt_count : Nat
  completed : Bool
  latest_attempt : Option LatestAttempt

/-- Body of the progress endpoint response. -/
structure ProgressResponse where
  agent : Option AgentInfo
  challenges : List ProgressEntry

/-- Message of the error `getProgress` throws on an unexpected status. -/
def progressFailureMessage (status : Nat) (statusText : String) : String :=
  "Failed to fetch agent progress: " ++ toString status ++ " " ++ statusText

/-- Embedding of `getProgress` (lines 272-285 of the client): 404 maps to
the empty not-yet-registered result, any other non-2xx status raises an
error whose message carries the status, and a 2xx status returns the
decoded body. -/
def getProgress (status : Nat) (statusText : String) (body : ProgressResponse) :
    Except String ProgressResponse :=
  if status == 404 then .ok { agent := none, challenges := [] }
  else if !(responseOk status) then .error (progressFailureMessage status statusText)
  else .ok body

/-- Embedding of the `SolanaWallet` state: the 64 secret-key bytes held by
the keypair (key derivation and signing live in external libraries). -/
structure SolanaWallet where
  secretKey : List Nat

/-- Error message thrown by the `SolanaWallet` constructor on key material
of the wrong length. -/
def invalidKeyMaterialMessage : String :=
  "SOLANA_PRIVATE_KEY must be a base58 encoded 64-byte secret key"

/-- Embedding of the `SolanaWallet` constructor from `solana.ts`, taking
the base58-decoded secret-key bytes (the decode itself is the external
`bs58` library): construction fails with the invalid-key-material error
exactly on inputs that are not 64 bytes long, and otherwise holds the
bytes (`Keypair.fromSecretKey` is external and modelled as total). -/
def mkSolanaWallet (secretKeyBytes : List Nat) : Except String SolanaWallet :=
  if secretKeyBytes.length ≠ 64 then .error invalidKeyMaterialMessage
  else .ok { secretKey := secretKeyBytes }

/-- Dropping from the front twice with the same predicate is the same as
dropping once. -/
theorem dropWhile_idem (p : Char → Bool) (l : List Char) :
    (l.dropWhile p).dropWhile p = l.dropWhile p := by
  induction l with
  | nil => rfl
  | cons a t ih =>
    by_cases h : p a
    · simp [List.dropWhile_cons_of_pos h, ih]
    · simp [List.dropWhile_cons_of_neg h]

/-- The head surviving a `dropWhile` fails the predicate. -/
theorem dropWhile_head_false (p : Char → Bool) :
    ∀ (l : List Char) (b : Char) (t : List Char), l.dropWhile p = b :: t → p b = false := by
  intro l
  induction l with
  | nil => intro b t h; simp at h
  | cons a s ih =>
    intro b t h
    cases hpa : p a
    · rw [List.dropWhile_cons_of_neg (by simp [hpa])] at h
      cases h
      exact hpa
    · rw [List.dropWhile_cons_of_pos hpa] at h
      exact ih _ _ h

/-- A list splits as its end-trimmed part followed by the trimmed-off run. -/
theorem eq_trimEnd_append (p : Char → Bool) (m : List Char) :
    m = (m.reverse.dropWhile p).reverse ++ (m.reverse.takeWhile p).reverse := by
  conv_lhs => rw [← List.reverse_reverse m,
    ← List.takeWhile_append_dropWhile (p := p) (l := m.reverse)]
  rw [List.reverse_append]

/-- Front-dropping after a full trim is the identity: the first remaining
character already failed the predicate. -/
theorem dropWhile_trimEndsWhile (p : Char → Bool) (l : List Char) :
    (trimEndsWhile p l).dropWhile p = trimEndsWhile p l := by
  unfold trimEndsWhile
  cases hE : ((l.dropWhile p).reverse.dropWhile p).reverse with
  | nil => simp
  | cons b t2 =>
    have hsplit := eq_trimEnd_append p (l.dropWhile p)
    rw [hE] at hsplit
    have hb : p b = false :=
      dropWhile_head_false p l b _ (by rw [hsplit, List.cons_append])
    rw [List.dropWhile_cons_of_neg (by simp [hb])]

/-- Trimming both ends is idempotent. -/
theorem trimEndsWhile_idem (p : Char → Bool) (l : List Char) :
    trimEndsWhile p (trimEndsWhile p l) = trimEndsWhile p l := by
  conv_lhs => rw [trimEndsWhile, dropWhile_trimEndsWhile p l]
  unfold trimEndsWhile
  rw [List.reverse_reverse, dropWhile_idem]

/-- Every character of a trimmed list occurs in the original list. -/
theorem mem_of_mem_trimEndsWhile (p : Char → Bool) (l : List Char) (c : Char)
    (hc : c ∈ trimEndsWhile p l) : c ∈ l := by
  unfold trimEndsWhile at hc
  rw [List.mem_reverse] at hc
  have h1 := (List.dropWhile_sublist (l := (l.dropWhile p).reverse) p).subset hc
  rw [List.mem_reverse] at h1
  exact (List.dropWhile_sublist (l := l) p).subset h1

/-- Dropping with a predicate false on every element is the identity. -/
theorem dropWhile_all_false (p : Char → Bool) (l : List Char)
    (h : ∀ c ∈ l, p c = false) : l.dropWhile p = l := by
  cases l with
  | nil => rfl
  | cons a t =>
    exact List.dropWhile_cons_of_neg (by simp [h a (List.mem_cons_self a t)])

/-- Trimming with a predicate false on every element is the identity. -/
theorem trimEndsWhile_all_false (p : Char → Bool) (l : List Char)
    (h : ∀ c ∈ l, p c = false) : trimEndsWhile p l = l := by
  unfold trimEndsWhile
  rw [dropWhile_all_false p l h,
      dropWhile_all_false p l.reverse (by intro c hc; exact h c (List.mem_reverse.mp hc)),
      List.reverse_reverse]

/-- Mapping a function that fixes every element is the identity. -/
theorem map_id_on (f : Char → Char) (l : List Char) (h : ∀ c ∈ l, f c = c) :
    l.map f = l := by
  induction l with
  | nil => rfl
  | cons a t ih =>
    rw [List.map_cons, h a (List.mem_cons_self a t),
        ih (fun c hc => h c (List.mem_cons.mpr (Or.inr hc)))]

/-- Characters kept by the sanitizer are fixed points of `Char.toLower`. -/
theorem keepChar_toLower_fixed (c : Char) (h : keepChar c = true) : c.toLower = c := by
  simp only [keepChar, Bool.or_eq_true, Bool.and_eq_true, decide_eq_true_eq, beq_iff_eq] at h
  unfold Char.toLower
  rw [if_neg]
  omega

/-- Characters kept by the sanitizer are not JavaScript whitespace. -/
theorem keepChar_not_whitespace (c : Char) (h : keepChar c = true) : jsWhitespace c = false := by
  simp only [keepChar, Bool.or_eq_true, Bool.and_eq_true, decide_eq_true_eq, beq_iff_eq] at h
  simp only [jsWhitespace, Bool.or_eq_false_iff, beq_eq_false_iff_ne, ne_eq]
  omega

/-- Every character produced by the sanitizer's collapse scanner is kept
(the separator underscore itself is in the kept class). -/
theorem mem_collapseRunsAux_keepChar (l : List Char) :
    ∀ (inRun : Bool), ∀ c ∈ collapseRunsAux keepChar inRun l, keepChar c = true := by
  induction l with
  | nil => intro inRun c hc; simp [collapseRunsAux] at hc
  | cons a t ih =>
    intro inRun c hc
    by_cases ha : keepChar a = true
    · rw [collapseRunsAux, if_pos ha] at hc
      rcases List.mem_cons.mp hc with h | h
      · rw [h]; exact ha
      · exact ih false c h
    · rw [collapseRunsAux, if_neg ha] at hc
      cases inRun with
      | true => exact ih true c (by simpa using hc)
      | false =>
        rcases List.mem_cons.mp (by simpa using hc) with h | h
        · rw [h]; rfl
        · exact ih true c h

/-- Every character produced by the sanitizer's collapse pass is kept. -/
theorem mem_collapseRuns_keepChar (l : List Char) :
    ∀ c ∈ collapseRuns keepChar l, keepChar c = true :=
  mem_collapseRunsAux_keepChar l false

/-- The collapse pass is the identity on lists of kept characters. -/
theorem collapseRuns_id (l : List Char) (h : ∀ c ∈ l, keepChar c = true) :
    collapseRuns keepChar l = l := by
  unfold collapseRuns
  induction l with
  | nil => rfl
  | cons a t ih =>
    rw [collapseRunsAux, if_pos (h a (List.mem_cons_self a t)),
        ih (fun c hc => h c (List.mem_cons.mpr (Or.inr hc)))]

/-- C4: when neither `transactionBase64` nor a transaction object is
supplied, `submitClientChallenge` fails with the missing-payload error
before any network request is issued: the effect trace is empty, so no
request body is ever sent. -/
theorem C4_missing_payload_no_request (baseUrl walletAddress slug : String) (r : HttpResponse) :
    submitClientChallenge baseUrl walletAddress slug none none r =
      ([], .error missingPayloadMessage) := rfl

/-- C5: for every HTTP response whose content-type header does not indicate
JSON, `submitClientChallenge` classifies the exchange as `ok := false`
with a synthesized error envelope whose `message` equals the raw response
body text, regardless of the HTTP status code; the classifier is a total
function, so no such response raises. -/
theorem C5_non_json_content_type_synthesized (r : HttpResponse)
    (h : contentTypeIndicatesJson r = false) :
    classifyClientSubmission r =
      { ok := false, status := r.status,
        body := JsonVal.obj [("error", JsonVal.str "Invalid response"),
                             ("message", JsonVal.str r.bodyText)] } := by
  have hp : parseJsonSafe r =
      JsonVal.obj [("error", JsonVal.str "Invalid response"),
                   ("message", JsonVal.str r.bodyText)] := by
    simp [parseJsonSafe, h]
  have hsucc : isClientSubmissionSuccess
      (JsonVal.obj [("error", JsonVal.str "Invalid response"),
                    ("message", JsonVal.str r.bodyText)]) = false := rfl
  have herr : isClientSubmissionError
      (JsonVal.obj [("error", JsonVal.str "Invalid response"),
                    ("message", JsonVal.str r.bodyText)]) = true := rfl
  simp [classifyClientSubmission, hp, hsucc, herr]

/-- Concrete non-JSON exchange used to witness C5: an HTML page served with
status 200. -/
def responseC5 : HttpResponse :=
  { status := 200
    statusText := "OK"
    contentTypeHeader := some "text/html"
    bodyText := "<html>oops</html>"
    jsonBody := .error "Unexpected token < in JSON" }

/-- Witness for C5 at a concrete `text/html` response. -/
theorem C5_witness :
    contentTypeIndicatesJson responseC5 = false ∧
    classifyClientSubmission responseC5 =
      { ok := false, status := 200,
        body := JsonVal.obj [("error", JsonVal.str "Invalid response"),
                             ("message", JsonVal.str "<html>oops</html>")] } :=
  ⟨rfl, C5_non_json_content_type_synthesized responseC5 rfl⟩

/-- C7 counterexample: two builds issued at the same instant with the same
program name whose freshly drawn UUIDs are distinct but agree on their
first eight characters produce the same workspace slug, so the combination
of time component and random component does not guarantee distinctness. -/
theorem C7_same_tick_same_prefix_collides :
    "aaaabbbb-1111" ≠ "aaaabbbb-2222" ∧
    makeWorkspaceSlug "prog" 12345 "aaaabbbb-1111" =
      makeWorkspaceSlug "prog" 12345 "aaaabbbb-2222" :=
  ⟨by decide, rfl⟩

/-- C7 amended: at a fixed instant, the workspace slugs of two builds with
the same program name are distinct exactly when the random components (the
first eight characters of the drawn UUIDs) differ; the time component
contributes no distinction within the same tick. -/
theorem C7_slug_distinct_iff_random_differs (name : String) (tick : Nat) (u1 u2 : String) :
    makeWorkspaceSlug name tick u1 = makeWorkspaceSlug name tick u2 ↔
      u1.data.take 8 = u2.data.take 8 := by
  constructor
  · intro h
    have hd := congrArg String.data h
    simp only [makeWorkspaceSlug, String.data_append, List.append_assoc] at hd
    exact List.append_cancel_left (List.append_cancel_left (List.append_cancel_left
      (List.append_cancel_left hd)))
  · intro h
    unfold makeWorkspaceSlug
    rw [h]

/-- C8: `getProgress` maps a 404 status to the empty not-yet-registered
result without raising, raises an error carrying the status for every
other non-2xx status, and returns the decoded body on a 2xx status. -/
theorem C8_progress_status_handling (status : Nat) (statusText : String) (body : ProgressResponse) :
    (status = 404 →
      getProgress status statusText body = .ok { agent := none, challenges := [] }) ∧
    (status ≠ 404 → responseOk status = false →
      getProgress status statusText body = .error (progressFailureMessage status statusText)) ∧
    (responseOk status = true → getProgress status statusText body = .ok body) := by
  refine ⟨?_, ?_, ?_⟩
  · intro h; subst h; rfl
  · intro h1 h2
    have h404 : (status == 404) = false := by simp [h1]
    simp [getProgress, h404, h2]
  · intro h
    have hne : status ≠ 404 := by
      intro e; subst e; simp [responseOk] at h
    have h404 : (status == 404) = false := by simp [hne]
    simp [getProgress, h404, h]

/-- Empty progress body used by the C8 witness. -/
def progressBodyEmpty : ProgressResponse :=
  { agent := none, challenges := [] }

/-- Witness for C8 at the 404 branch. -/
theorem C8_witness :
    (404 : Nat) = 404 ∧
    getProgress 404 "Not Found" progressBodyEmpty = .ok { agent := none, challenges := [] } :=
  ⟨rfl, (C8_progress_status_handling 404 "Not Found" progressBodyEmpty).1 rfl⟩

/-- C9: the `SolanaWallet` constructor fails with the invalid-key-material
error exactly when the decoded secret-key bytes are not 64 bytes long, and
succeeds on every 64-byte input. -/
theorem C9_wallet_key_length (secretKeyBytes : List Nat) :
    (mkSolanaWallet secretKeyBytes = .error invalidKeyMaterialMessage ↔
      secretKeyBytes.length ≠ 64) ∧
    (secretKeyBytes.length = 64 →
      mkSolanaWallet secretKeyBytes = .ok { secretKey := secretKeyBytes }) := by
  constructor
  · constructor
    · intro h hlen
      simp [mkSolanaWallet, hlen] at h
    · intro h
      simp [mkSolanaWallet, h]
  · intro h
    simp [mkSolanaWallet, h]

/-- Witness for C9 at a concrete 64-byte key. -/
theorem C9_witness :
    (List.replicate 64 (0 : Nat)).length = 64 ∧
    mkSolanaWallet (List.replicate 64 (0 : Nat)) =
      .ok { secretKey := List.replicate 64 (0 : Nat) } :=
  ⟨by simp, (C9_wallet_key_length (List.replicate 64 0)).2 (by simp)⟩

/-- C10: payload resolution gives a non-empty `transactionBase64` absolute
precedence (it is used verbatim and the transaction object, even when also
supplied, is never signed or serialized — the resolved payload carries the
`verbatim` tag); an empty-string `transactionBase64` is treated exactly
like an absent one, falling back to signing the supplied transaction or
raising the missing-payload error when none was given. -/
theorem C10_transaction_payload_precedence (s : String) (tx : Option VersionedTransaction)
    (t : VersionedTransaction) :
    (s ≠ "" → resolveTransactionBase64 (some s) tx = .ok (.verbatim s)) ∧
    (resolveTransactionBase64 (some "") tx = resolveTransactionBase64 none tx) ∧
    (resolveTransactionBase64 (some "") (some t) = .ok (.signed t)) ∧
    (resolveTransactionBase64 (some "") none = .error missingPayloadMessage) := by
    refine ⟨?_, rfl, rfl, rfl⟩
    intro h
    have hb : (s == "") = false := by simp [h]
    simp [resolveTransactionBase64, jsTruthyStr, hb]

/-- Witness for C10 at a concrete non-empty base64 payload. -/
theorem C10_witness :
    "QUJD" ≠ "" ∧
    resolveTransactionBase64 (some "QUJD") (some { signedSerialization := [1, 2, 3] }) =
      .ok (.verbatim "QUJD") :=
  ⟨by decide,
   (C10_transaction_payload_precedence "QUJD" (some { signedSerialization := [1, 2, 3] })
     { signedSerialization := [1, 2, 3] }).1 (by decide)⟩

/-- C1: whenever scaffolding succeeded, the build subprocess exited nonzero
and the compiled binary exists at the expected artifact path, the returned
build result has `success = false` while `programSoBase64` is still
populated with the base64 encoding of the binary's bytes and
`programSoPath` is set. -/
theorem C1_build_failure_still_harvests_artifact
    (programName cargoToml libRs cwd : String) (tick : Nat) (uuid : String)
    (w : BuildWorld) (o e : String) (f : ExecFailure)
    (hs : w.scaffoldResult = .ok o e) (hb : w.buildResult = .fail f)
    (hso : w.soExists = true) :
    ∃ res, createAnchorProgram programName cargoToml libRs cwd tick uuid w = .ok res ∧
      ∃ b, res.build = some b ∧
        b.success = false ∧
        b.programSoPath = some (res.workspaceDir ++ "/target/deploy/" ++
          makeWorkspaceSlug programName tick uuid ++ ".so") ∧
        b.programSoBase64 = some (base64Encode w.soBytes) := by
  simp only [createAnchorProgram, hs]
  refine ⟨_, rfl, _, rfl, ?_, ?_, ?_⟩ <;> simp [anchorBuildPhase, hb, hso]

/-- Concrete build world for the C1 witness and the C2 counterexample:
scaffolding succeeded, the build subprocess failed, yet both the binary
and the keypair file exist on disk. -/
def buildWorldFailedWithArtifacts : BuildWorld :=
  { scaffoldResult := .ok "" ""
    buildResult := .fail { stdoutOpt := some "compiling", stderrOpt := some "error[E0412]",
                           message := "Command failed: anchor build" }
    soExists := true
    keypairExists := true
    soBytes := [1, 2, 3] }

/-- Witness for C1 at a concrete failed build that left a binary behind. -/
theorem C1_witness :
    buildWorldFailedWithArtifacts.scaffoldResult = .ok "" "" ∧
    buildWorldFailedWithArtifacts.buildResult =
      .fail { stdoutOpt := some "compiling", stderrOpt := some "error[E0412]",
              message := "Command failed: anchor build" } ∧
    buildWorldFailedWithArtifacts.soExists = true ∧
    (∃ res, createAnchorProgram "My Program!!" "[package]" "fn main" "/work" 99 "abcd1234-ef56"
        buildWorldFailedWithArtifacts = .ok res ∧
      ∃ b, res.build = some b ∧
        b.success = false ∧
        b.programSoPath = some (res.workspaceDir ++ "/target/deploy/" ++
          makeWorkspaceSlug "My Program!!" 99 "abcd1234-ef56" ++ ".so") ∧
        b.programSoBase64 = some (base64Encode buildWorldFailedWithArtifacts.soBytes)) :=
  ⟨rfl, rfl, rfl,
   C1_build_failure_still_harvests_artifact "My Program!!" "[package]" "fn main" "/work" 99
     "abcd1234-ef56" buildWorldFailedWithArtifacts "" ""
     { stdoutOpt := some "compiling", stderrOpt := some "error[E0412]",
       message := "Command failed: anchor build" } rfl rfl rfl⟩

/-- C2 counterexample: at a concrete build whose subprocess exited nonzero
while the keypair file exists at the expected location, the returned
result leaves `keypairPath` unset, contradicting the claim that the
keypair file is probed independently of the exit status. -/
theorem C2_keypair_absent_on_failed_build :
    buildWorldFailedWithArtifacts.keypairExists = true ∧
    (∃ res, createAnchorProgram "p" "cargo" "lib" "/work" 0 "abcd1234-ef56"
        buildWorldFailedWithArtifacts = .ok res ∧
      ∃ b, res.build = some b ∧ b.success = false ∧ b.keypairPath = none) :=
  ⟨rfl, _, rfl, _, rfl, rfl, rfl⟩

/-- C2 amended: the keypair file is probed only when the build subprocess
exits zero — on zero exit `keypairPath` is populated exactly when the file
exists, while on nonzero exit `keypairPath` is never set, even when the
keypair file exists at the expected location. -/
theorem C2_keypair_probe_only_on_success
    (programName cargoToml libRs cwd : String) (tick : Nat) (uuid : String)
    (w : BuildWorld) (o e : String)
    (hs : w.scaffoldResult = .ok o e) :
    ∃ res, createAnchorProgram programName cargoToml libRs cwd tick uuid w = .ok res ∧
      ∃ b, res.build = some b ∧
        (∀ f, w.buildResult = .fail f → b.keypairPath = none) ∧
        (∀ o2 e2, w.buildResult = .ok o2 e2 →
          b.keypairPath = if w.keypairExists then
            some (res.workspaceDir ++ "/target/deploy/" ++
              makeWorkspaceSlug programName tick uuid ++ "-keypair.json")
          else none) := by
  simp only [createAnchorProgram, hs]
  refine ⟨_, rfl, _, rfl, ?_, ?_⟩
  · intro f hf
    simp [anchorBuildPhase, hf]
  · intro o2 e2 hok
    simp [anchorBuildPhase, hok]

/-- Witness for the amended C2 at the concrete failed build with an
existing keypair file: the fail-branch consequence yields
`keypairPath = none`. -/
theorem C2_witness :
    buildWorldFailedWithArtifacts.scaffoldResult = .ok "" "" ∧
    (∃ res, createAnchorProgram "p" "cargo" "lib" "/work" 0 "abcd1234-ef56"
        buildWorldFailedWithArtifacts = .ok res ∧
      ∃ b, res.build = some b ∧
        (∀ f, buildWorldFailedWithArtifacts.buildResult = .fail f → b.keypairPath = none) ∧
        (∀ o2 e2, buildWorldFailedWithArtifacts.buildResult = .ok o2 e2 →
          b.keypairPath = if buildWorldFailedWithArtifacts.keypairExists then
            some (res.workspaceDir ++ "/target/deploy/" ++
              makeWorkspaceSlug "p" 0 "abcd1234-ef56" ++ "-keypair.json")
          else none)) :=
  ⟨rfl, C2_keypair_probe_only_on_success "p" "cargo" "lib" "/work" 0 "abcd1234-ef56"
    buildWorldFailedWithArtifacts "" "" rfl⟩

/-- Success-shaped payload served with a failing HTTP status, used to
refute C3 as stated. -/
def responseC3ServerError : HttpResponse :=
  { status := 500
    statusText := "Internal Server Error"
    contentTypeHeader := some "application/json"
    bodyText := "\x7b\"success\":true,\"results\":[]\x7d"
    jsonBody := .ok (JsonVal.obj [("success", JsonVal.bool true),
                                  ("results", JsonVal.arr [])]) }

/-- C3 counterexample: a decoded payload carrying a boolean `success` flag
and an array `results` field is not returned as the success envelope when
the HTTP status is not 2xx — the classifier yields `ok := false` with a
synthesized error envelope, so shape alone does not imply the success
envelope. -/
theorem C3_success_shape_alone_insufficient :
    isClientSubmissionSuccess (JsonVal.obj [("success", JsonVal.bool true),
                                            ("results", JsonVal.arr [])]) = true ∧
    parseJsonSafe responseC3ServerError =
      JsonVal.obj [("success", JsonVal.bool true), ("results", JsonVal.arr [])] ∧
    (classifyClientSubmission responseC3ServerError).ok = false ∧
    (classifyClientSubmission responseC3ServerError).body =
      JsonVal.obj [("error", JsonVal.str "Invalid response"),
                   ("message", JsonVal.str "\x7b\"success\":true,\"results\":[]\x7d")] :=
  ⟨rfl, rfl, rfl, rfl⟩

/-- C3 amended: the decoded payload is classified by shape in a fixed
order, with the success envelope additionally requiring a 2xx transport
status: when the status is 2xx and the payload carries a boolean `success`
plus an array `results`, the envelope is passed through with `ok := true`;
otherwise an object with string `error` and `message` fields is returned
as the error envelope; any remaining payload yields a synthesized error
envelope whose message is the stringified payload. -/
theorem C3_classification_with_ok_status (r : HttpResponse) :
    (responseOk r.status = true → isClientSubmissionSuccess (parseJsonSafe r) = true →
      classifyClientSubmission r =
        { ok := true, status := r.status, body := parseJsonSafe r }) ∧
    ((responseOk r.status = false ∨ isClientSubmissionSuccess (parseJsonSafe r) = false) →
      isClientSubmissionError (parseJsonSafe r) = true →
      classifyClientSubmission r =
        { ok := false, status := r.status, body := parseJsonSafe r }) ∧
    ((responseOk r.status = false ∨ isClientSubmissionSuccess (parseJsonSafe r) = false) →
      isClientSubmissionError (parseJsonSafe r) = false →
      classifyClientSubmission r =
        { ok := false, status := r.status,
          body := JsonVal.obj [("error", JsonVal.str "Invalid response"),
            ("message", JsonVal.str (stringifyPayloadForMessage (parseJsonSafe r)))] }) := by
  refine ⟨?_, ?_, ?_⟩
  · intro h1 h2
    simp [classifyClientSubmission, h1, h2]
  · rintro (h1 | h1) h2 <;> simp [classifyClientSubmission, h1, h2]
  · rintro (h1 | h1) h2 <;> simp [classifyClientSubmission, h1, h2]

/-- Success-shaped payload served with HTTP 200, used to witness the
amended C3. -/
def responseC3Ok : HttpResponse :=
  { status := 200
    statusText := "OK"
    contentTypeHeader := some "application/json"
    bodyText := "\x7b\"success\":true,\"results\":[]\x7d"
    jsonBody := .ok (JsonVal.obj [("success", JsonVal.bool true),
                                  ("results", JsonVal.arr [])]) }

/-- Witness for the amended C3: with HTTP 200 and a success-shaped payload
the envelope is passed through unchanged with `ok := true`. -/
theorem C3_witness :
    responseOk 200 = true ∧
    isClientSubmissionSuccess (parseJsonSafe responseC3Ok) = true ∧
    classifyClientSubmission responseC3Ok =
      { ok := true, status := 200,
        body := JsonVal.obj [("success", JsonVal.bool true),
                             ("results", JsonVal.arr [])] } :=
  ⟨rfl, rfl, (C3_classification_with_ok_status responseC3Ok).1 rfl rfl⟩

/-- Sanitizing an already-sanitized name changes nothing: the output
consists solely of kept characters with no leading or trailing
underscore, on which every pipeline stage is the identity. -/
theorem sanitizeProgramName_idem (name : String) :
    sanitizeProgramName (sanitizeProgramName name) = sanitizeProgramName name := by
  set cleaned := trimEndsWhile (fun c => c == '_')
      (collapseRuns keepChar ((trimEndsWhile jsWhitespace name.data).map Char.toLower)) with hdef
  have hsan : sanitizeProgramName name =
      if cleaned.isEmpty then "anchor_program" else ⟨cleaned⟩ := rfl
  by_cases hc : cleaned.isEmpty
  · rw [hsan, if_pos hc]; decide
  · rw [hsan, if_neg hc]
    have hkeep : ∀ c ∈ cleaned, keepChar c = true := by
      intro c h
      rw [hdef] at h
      exact mem_collapseRuns_keepChar _ c (mem_of_mem_trimEndsWhile _ _ c h)
    have h1 : trimEndsWhile jsWhitespace cleaned = cleaned :=
      trimEndsWhile_all_false _ _ (fun c h => keepChar_not_whitespace c (hkeep c h))
    have h2 : cleaned.map Char.toLower = cleaned :=
      map_id_on _ _ (fun c h => keepChar_toLower_fixed c (hkeep c h))
    have h3 : collapseRuns keepChar cleaned = cleaned := collapseRuns_id _ hkeep
    have h4 : trimEndsWhile (fun c => c == '_') cleaned = cleaned := by
      rw [hdef]; exact trimEndsWhile_idem _ _
    simp only [sanitizeProgramName]
    rw [h1, h2, h3, h4, if_neg hc]

/-- C6 counterexample: on the input `a__b` the implemented sanitizer keeps
the double underscore (underscore belongs to its kept class), while the
claimed rule — collapsing every run of non-alphanumeric characters into a
single separator — would produce `a_b`; the two derivations disagree. -/
theorem C6_underscore_runs_not_collapsed :
    sanitizeProgramName "a__b" = "a__b" ∧
    claimSlugOfName "a__b" = "a_b" ∧
    sanitizeProgramName "a__b" ≠ claimSlugOfName "a__b" :=
  ⟨rfl, rfl, by decide⟩

/-- C6 amended: the slug is derived by lowercasing, collapsing every run of
characters other than lowercase letters, digits and underscores into a
single underscore, and trimming leading and trailing underscores
(underscores already present are preserved, as `a__b` shows); an empty or
all-symbol input falls back to the fixed default slug; the derivation is
idempotent; and `My Program!!` maps to `my_program`. -/
theorem C6_sanitize_idempotent_and_examples (name : String) :
    sanitizeProgramName (sanitizeProgramName name) = sanitizeProgramName name ∧
    sanitizeProgramName "My Program!!" = "my_program" ∧
    sanitizeProgramName "" = "anchor_program" ∧
    sanitizeProgramName "!!!" = "anchor_program" ∧
    sanitizeProgramName "a__b" = "a__b" :=
  ⟨sanitizeProgramName_idem name, by decide, rfl, rfl, rfl⟩

/-- Witness for the amended C7: two same-instant draws differing in their
first eight characters yield distinct slugs. -/
theorem C7_witness :
    makeWorkspaceSlug "prog" 12345 "aaaabbbb-1111" ≠ makeWorkspaceSlug "prog" 12345 "cccc0000-1111" := by
  intro h
  exact absurd ((C7_slug_distinct_iff_random_differs "prog" 12345 "aaaabbbb-1111"
    "cccc0000-1111").mp h) (by decide)
